import Mathlib

/-!
Verification of the Carbon_date anomaly-to-date warp engine.

The repository holds five near-identical Python scripts (carbonDate.py,
carbonDate3.py, carbonDate4.py, warped_clock.py, warped_clock2.py).  This file
embeds their core numeric functions shallowly in Lean: Python floats become ℚ
(exact arithmetic), dates become a ℚ count of days, missing CSV cells become
Option ℚ, and Python exceptions become an Except over an explicit error type.
Each embedded definition records, in its doc comment, the source file and line
range it is translated from.
-/

set_option maxHeartbeats 1000000

/-- Errors signalled by the embedded code.  `valueError`, `zeroDivisionError`,
`typeError` and `indexError` model the Python exceptions of the same names.
`degenerateHorizon` is the error name the specification assigns to a zero
projection horizon; it is declared only so that theorems can state that no
code path of the repository ever signals it. -/
inductive PyError : Type
  | valueError
  | zeroDivisionError
  | typeError
  | indexError
  | degenerateHorizon
  deriving DecidableEq, Repr

/-- Lines 39-48 of src/carbonDate.py and lines 49-58 of src/carbonDate3.py
(textually identical): scan the annual record list in order and return the
anomaly of the first record whose year matches, raising ValueError when no
record matches.  A record is a (year, anomaly) pair. -/
def get_current_anomaly (current_year : ℤ) : List (ℤ × ℚ) → Except PyError ℚ
  | [] => .error .valueError
  | record :: rest =>
      if record.1 = current_year then .ok record.2
      else get_current_anomaly current_year rest

/-- Lines 43-47 of src/warped_clock.py and lines 48-52 of src/warped_clock2.py
(textually identical): scan the annual record list in order and return the
anomaly of the first record whose year matches, returning None when no record
matches. -/
def get_anomaly_for_year (year : ℤ) : List (ℤ × ℚ) → Option ℚ
  | [] => none
  | record :: rest =>
      if record.1 = year then some record.2
      else get_anomaly_for_year year rest

/-- Lines 50-59 of src/carbonDate4.py: scan the monthly record list in order
and return the 12-slot month list of the first record whose year matches,
raising ValueError when no record matches.  A missing month is `none`. -/
def get_monthly_anomalies (current_year : ℤ) :
    List (ℤ × List (Option ℚ)) → Except PyError (List (Option ℚ))
  | [] => .error .valueError
  | record :: rest =>
      if record.1 = current_year then .ok record.2
      else get_monthly_anomalies current_year rest

/-- The loop body of lines 62-70 of src/carbonDate4.py: the finite difference
of two adjacent monthly values when both are present, otherwise absent. -/
def derivOf : Option ℚ → Option ℚ → Option ℚ
  | some cur, some prev => some (cur - prev)
  | _, _ => none

/-- Lines 62-70 of src/carbonDate4.py: for i in 1 .. length-1, slot i-1 of the
result is anomalies[i] - anomalies[i-1] when both are present, else absent. -/
def calculate_monthly_derivatives : List (Option ℚ) → List (Option ℚ)
  | [] => []
  | [_] => []
  | prev :: cur :: rest => derivOf cur prev :: calculate_monthly_derivatives (cur :: rest)

/-- One iteration of the loop of lines 75-78 of src/carbonDate4.py at index
`i`: when slot i is absent and derivative i-1 is present, slot i is overwritten
with slot i-1 plus that derivative; Python would raise TypeError (modelled as
`none`) if slot i-1 were absent at that point.  Indices reached by the loop
are always in bounds, so reads are modelled with `List.getD`. -/
def predictStep (derivatives : List (Option ℚ)) (predicted : List (Option ℚ))
    (i : ℕ) : Option (List (Option ℚ)) :=
  match predicted.getD i none, derivatives.getD (i - 1) none with
  | none, some d =>
      match predicted.getD (i - 1) none with
      | some p => some (predicted.set i (some (p + d)))
      | none => none
  | _, _ => some predicted

/-- Lines 73-79 of src/carbonDate4.py: starting from a copy of `anomalies`,
run `predictStep` for i = 1 .. length-1 in order. -/
def predict_missing_data (anomalies derivatives : List (Option ℚ)) :
    Option (List (Option ℚ)) :=
  (List.range' 1 (anomalies.length - 1)).foldlM (predictStep derivatives) anomalies

/-- Lines 51-57 of src/carbonDate.py and lines 50-54 of src/warped_clock.py
(textually identical): linear projection of the current anomaly toward the
1.5 degree target in 2050.  The division is unguarded in the source, so a
zero horizon raises ZeroDivisionError. -/
def calculate_expected_anomaly (current_year : ℤ) (current_anomaly : ℚ) :
    Except PyError ℚ :=
  let years_to_2050 : ℤ := 2050 - current_year
  if years_to_2050 = 0 then .error .zeroDivisionError
  else
    let anomaly_increase : ℚ := 3/2 - current_anomaly
    let shift_per_year : ℚ := anomaly_increase / (years_to_2050 : ℚ)
    .ok (current_anomaly + shift_per_year)

/-- Lines 55-59 of src/warped_clock2.py: the same linear projection, but the
per-year shift is taken to be 0 when the horizon is zero. -/
def warpedClock2_calculate_expected_anomaly (current_year : ℤ)
    (current_anomaly : ℚ) : ℚ :=
  let years_to_2050 : ℤ := 2050 - current_year
  let shift_per_year : ℚ :=
    if years_to_2050 ≠ 0 then (3/2 - current_anomaly) / (years_to_2050 : ℚ) else 0
  current_anomaly + shift_per_year

/-- Lines 60-83 of src/carbonDate.py: look up the anomaly of the input year,
project the expected anomaly, and shift the input date (a ℚ count of days) by
365 days per degree of anomaly difference.  Returns the adjusted date and the
anomaly difference. -/
def carbonDate_adjust_date_based_on_anomaly (temperature_data : List (ℤ × ℚ))
    (input_year : ℤ) (input_date : ℚ) : Except PyError (ℚ × ℚ) :=
  match get_current_anomaly input_year temperature_data with
  | .error e => .error e
  | .ok current_anomaly =>
      match calculate_expected_anomaly input_year current_anomaly with
      | .error e => .error e
      | .ok expected_anomaly =>
          let anomaly_difference := current_anomaly - expected_anomaly
          let days_shift := anomaly_difference * 365
          .ok (input_date + days_shift, anomaly_difference)

/-- Lines 61-74 of src/warped_clock2.py: the same date adjustment with the
guarded projection; raises ValueError when the year has no record. -/
def warpedClock2_adjust_date_based_on_anomaly (temperature_data : List (ℤ × ℚ))
    (current_year : ℤ) (now_date : ℚ) : Except PyError (ℚ × ℚ) :=
  match get_anomaly_for_year current_year temperature_data with
  | none => .error .valueError
  | some current_anomaly =>
      let expected_anomaly :=
        warpedClock2_calculate_expected_anomaly current_year current_anomaly
      let anomaly_difference := current_anomaly - expected_anomaly
      let days_shift := anomaly_difference * 365
      .ok (now_date + days_shift, anomaly_difference)

/-- The proportional warped-year formula shared by lines 72-78 of
src/carbonDate3.py and lines 103-109 of src/carbonDate4.py, with the two
hardcoded baseline year, target year and target anomaly of the files made
parameters (the files differ only in those constants). -/
def proportional_adjusted_year (baseline_year target_year : ℤ)
    (target_temp current_anomaly : ℚ) : ℚ :=
  if current_anomaly ≥ target_temp then (target_year : ℚ)
  else
    let proportion := current_anomaly / target_temp
    (baseline_year : ℚ) + proportion * ((target_year : ℚ) - (baseline_year : ℚ))

/-- Lines 72-78 of src/carbonDate3.py: baseline PARIS_AGREEMENT = 2016,
TARGET_YEAR = 2050, TARGET_TEMP = 1.5. -/
def carbonDate3_adjusted_year : ℚ → ℚ :=
  proportional_adjusted_year 2016 2050 (3/2)

/-- Lines 103-109 of src/carbonDate4.py: baseline 1880, TARGET_YEAR = 2100,
TARGET_TEMP = 1.5. -/
def carbonDate4_adjusted_year : ℚ → ℚ :=
  proportional_adjusted_year 1880 2100 (3/2)

/-- Lines 82-118 of src/carbonDate4.py: look up the month list of the input year,
run the derivative and fill steps, read the slot of the input month (0-based), and
shift the input date by 365.25 days per warped year of offset.  Reading an
absent slot makes the comparison against the target fault with TypeError; an
out-of-range month index would fault with IndexError.  Returns the adjusted
date, the anomaly used and the derivative list. -/
def carbonDate4_adjust_date_based_on_anomaly
    (series : List (ℤ × List (Option ℚ))) (current_year : ℤ)
    (current_month : ℕ) (input_date : ℚ) :
    Except PyError (ℚ × ℚ × List (Option ℚ)) :=
  match get_monthly_anomalies current_year series with
  | .error e => .error e
  | .ok monthly_anomalies =>
      let derivatives := calculate_monthly_derivatives monthly_anomalies
      match predict_missing_data monthly_anomalies derivatives with
      | none => .error .typeError
      | some predicted_anomalies =>
          match predicted_anomalies.get? current_month with
          | none => .error .indexError
          | some none => .error .typeError
          | some (some current_anomaly) =>
              let adjusted_year := carbonDate4_adjusted_year current_anomaly
              let year_offset := adjusted_year - (current_year : ℚ)
              let days_shift := year_offset * (1461/4)
              .ok (input_date + days_shift, current_anomaly, derivatives)

/-- One iteration of the loop of lines 62-71 of src/warped_clock.py.  The
source computes `year = current_year - i // 12`, skips the year when the
looked-up anomaly is falsy (absent or equal to 0.0), and otherwise runs the
unguarded projection and appends the year label (modelled as the year itself
rather than its decimal string) and the warp rate. -/
def warpedClock_time_warp_step (temperature_data : List (ℤ × ℚ))
    (current_year : ℤ) (acc : List ℤ × List ℚ) (i : ℕ) :
    Except PyError (List ℤ × List ℚ) :=
  let year : ℤ := current_year - ((i / 12 : ℕ) : ℤ)
  match get_anomaly_for_year year temperature_data with
  | some anomaly =>
      if anomaly ≠ 0 then
        match calculate_expected_anomaly year anomaly with
        | .error e => .error e
        | .ok expected_anomaly =>
            let anomaly_difference := anomaly - expected_anomaly
            let warp_rate := anomaly_difference * 365
            .ok (acc.1 ++ [year], acc.2 ++ [warp_rate])
      else .ok acc
  | none => .ok acc

/-- Lines 57-72 of src/warped_clock.py: run the loop for i = 0 .. 11 and
reverse both accumulated lists.  No error is raised when the lists are
empty. -/
def warpedClock_calculate_time_warp_data (temperature_data : List (ℤ × ℚ))
    (current_year : ℤ) : Except PyError (List ℤ × List ℚ) :=
  match (List.range 12).foldlM (warpedClock_time_warp_step temperature_data current_year)
      ([], []) with
  | .error e => .error e
  | .ok acc => .ok (acc.1.reverse, acc.2.reverse)

/-- One iteration of the loop of lines 82-90 of src/warped_clock2.py: the year
is `current_year - i`, a year is skipped exactly when its lookup returns None,
and the projection is the guarded (total) one. -/
def warpedClock2_time_warp_step (temperature_data : List (ℤ × ℚ))
    (current_year : ℤ) (acc : List ℤ × List ℚ) (i : ℕ) : List ℤ × List ℚ :=
  let year : ℤ := current_year - (i : ℤ)
  match get_anomaly_for_year year temperature_data with
  | some anomaly =>
      let expected_anomaly := warpedClock2_calculate_expected_anomaly year anomaly
      let anomaly_difference := anomaly - expected_anomaly
      let warp_rate := anomaly_difference * 365
      (acc.1 ++ [year], acc.2 ++ [warp_rate])
  | none => acc

/-- Lines 77-95 of src/warped_clock2.py: run the loop for i = 0 .. 11,
raise ValueError when no year produced an entry, and otherwise reverse both
accumulated lists. -/
def warpedClock2_calculate_time_warp_data (temperature_data : List (ℤ × ℚ))
    (current_year : ℤ) : Except PyError (List ℤ × List ℚ) :=
  let acc := (List.range 12).foldl
    (warpedClock2_time_warp_step temperature_data current_year) ([], [])
  if acc.2 = [] then .error .valueError
  else .ok (acc.1.reverse, acc.2.reverse)

/-- Helper: whenever slot i of the month list is absent, derivative slot i-1
is absent too, because that derivative needs slot i as its left operand. -/
theorem deriv_getD_none (a : List (Option ℚ)) (j : ℕ)
    (h : a.getD (j + 1) none = none) :
    (calculate_monthly_derivatives a).getD j none = none := by
  induction a generalizing j with
  | nil => simp [calculate_monthly_derivatives]
  | cons x xs ih =>
      cases xs with
      | nil => simp [calculate_monthly_derivatives]
      | cons y ys =>
          cases j with
          | zero =>
              simp only [List.getD_cons_succ, List.getD_cons_zero] at h
              subst h
              cases x <;> simp [calculate_monthly_derivatives, derivOf]
          | succ k =>
              have h2 : (y :: ys).getD (k + 1) none = none := by simpa using h
              simpa [calculate_monthly_derivatives] using ih k h2

/-- Helper: when the derivative list comes from the month list itself, the
fill condition of one loop iteration can never hold, so the iteration leaves
the list unchanged. -/
theorem predictStep_self (a : List (Option ℚ)) (i : ℕ) (hi : 1 ≤ i) :
    predictStep (calculate_monthly_derivatives a) a i = some a := by
  unfold predictStep
  cases h : a.getD i none with
  | some v =>
      cases hd : (calculate_monthly_derivatives a).getD (i - 1) none <;> rfl
  | none =>
      obtain ⟨j, rfl⟩ := Nat.exists_eq_add_of_le hi
      have hd : (calculate_monthly_derivatives a).getD (1 + j - 1) none = none := by
        have := deriv_getD_none a j (by simpa [Nat.add_comm] using h)
        simpa using this
      rw [hd]

/-- Helper: a monadic fold over Option whose step fixes the state returns the
state unchanged. -/
theorem foldlM_self {α σ : Type} (f : σ → α → Option σ) (s : σ) :
    ∀ l : List α, (∀ x ∈ l, f s x = some s) → l.foldlM f s = some s := by
  intro l
  induction l with
  | nil => intro _; rfl
  | cons x xs ih =>
      intro hall
      have hx : f s x = some s := hall x (by simp)
      have hrest : ∀ y ∈ xs, f s y = some s := fun y hy => hall y (by simp [hy])
      rw [List.foldlM_cons, hx]
      exact ih hrest

/-- Helper: the fill step applied to a month list and its own derivative list
returns the list unchanged (and never faults). -/
theorem predict_missing_data_self (a : List (Option ℚ)) :
    predict_missing_data a (calculate_monthly_derivatives a) = some a := by
  unfold predict_missing_data
  apply foldlM_self
  intro i hi
  exact predictStep_self a i (List.mem_range'_1.mp hi).1
theorem proportional_clamp (B T : ℤ) (t a : ℚ) (h : t ≤ a) :
    proportional_adjusted_year B T t a = (T : ℚ) := by
  unfold proportional_adjusted_year
  rw [if_pos h]

theorem proportional_formula (B T : ℤ) (t a : ℚ) (h : a < t) :
    proportional_adjusted_year B T t a
      = (B : ℚ) + a / t * ((T : ℚ) - (B : ℚ)) := by
  unfold proportional_adjusted_year
  rw [if_neg (not_le.mpr h)]

theorem proportional_ge_baseline (B T : ℤ) (t a : ℚ)
    (ht : 0 < t) (hBT : (B : ℚ) ≤ (T : ℚ)) (ha : 0 ≤ a) :
    (B : ℚ) ≤ proportional_adjusted_year B T t a := by
  rcases le_or_lt t a with h | h
  · rw [proportional_clamp B T t a h]; exact hBT
  · rw [proportional_formula B T t a h]
    have h1 : 0 ≤ a / t := div_nonneg ha ht.le
    nlinarith

theorem proportional_le_target (B T : ℤ) (t a : ℚ)
    (ht : 0 < t) (hBT : (B : ℚ) ≤ (T : ℚ)) :
    proportional_adjusted_year B T t a ≤ (T : ℚ) := by
  rcases le_or_lt t a with h | h
  · rw [proportional_clamp B T t a h]
  · rw [proportional_formula B T t a h]
    have h1 : a / t ≤ 1 := (div_le_one ht).mpr h.le
    nlinarith

theorem proportional_at_zero (B T : ℤ) (t : ℚ) (ht : 0 < t) :
    proportional_adjusted_year B T t 0 = (B : ℚ) := by
  rw [proportional_formula B T t 0 ht]
  simp

theorem proportional_below_baseline (B T : ℤ) (t a : ℚ)
    (ht : 0 < t) (hBT : (B : ℚ) < (T : ℚ)) (ha : a < 0) :
    proportional_adjusted_year B T t a < (B : ℚ) := by
  rw [proportional_formula B T t a (ha.trans ht)]
  have h1 : a / t < 0 := div_neg_of_neg_of_pos ha ht
  nlinarith

theorem proportional_mono (B T : ℤ) (t a₁ a₂ : ℚ)
    (ht : 0 < t) (hBT : (B : ℚ) ≤ (T : ℚ)) (h : a₁ ≤ a₂) :
    proportional_adjusted_year B T t a₁ ≤ proportional_adjusted_year B T t a₂ := by
  rcases le_or_lt t a₂ with h2 | h2
  · rw [proportional_clamp B T t a₂ h2]
    exact proportional_le_target B T t a₁ ht hBT
  · have h1 : a₁ < t := lt_of_le_of_lt h h2
    rw [proportional_formula B T t a₁ h1, proportional_formula B T t a₂ h2]
    have hd : a₁ / t ≤ a₂ / t := by
      exact div_le_div_of_nonneg_right h ht.le
    nlinarith

/-- C1: running MonthlyGapFiller (derivatives of the month list, then the fill
step) on any monthly anomaly sequence returns the sequence unchanged and never
faults: the fill condition needs derivative i-1, which is absent whenever slot
i is absent, so no absent entry is ever filled and no present entry changes.
The operation is therefore the identity on its input, hence idempotent. -/
theorem c1_monthly_gap_filler_identity (a : List (Option ℚ)) :
    predict_missing_data a (calculate_monthly_derivatives a) = some a :=
  predict_missing_data_self a

/-- C2: for carbonDate.py inputs with a non-degenerate horizon, the anomaly
difference computed literally as current minus expected equals
(current_anomaly - target_anomaly) / years_to_target with target 1.5 in 2050;
when the current anomaly equals the target the difference is 0 and the warped
date is the input date; and the warped date falls after the input date exactly
when the difference is positive. -/
theorem c2_local_linear_difference (current_year : ℤ) (a input_date : ℚ)
    (h : current_year ≠ 2050) :
    carbonDate_adjust_date_based_on_anomaly [(current_year, a)] current_year input_date
        = .ok (input_date + (a - 3/2) / ((2050 : ℚ) - (current_year : ℚ)) * 365,
               (a - 3/2) / ((2050 : ℚ) - (current_year : ℚ))) ∧
    (a = 3/2 →
      carbonDate_adjust_date_based_on_anomaly [(current_year, a)] current_year input_date
        = .ok (input_date, 0)) ∧
    (input_date < input_date + (a - 3/2) / ((2050 : ℚ) - (current_year : ℚ)) * 365
      ↔ 0 < (a - 3/2) / ((2050 : ℚ) - (current_year : ℚ))) := by
  have hz : (2050 : ℤ) - current_year ≠ 0 := by
    intro hc; apply h; omega
  have hq : (2050 : ℚ) - (current_year : ℚ) ≠ 0 := by
    intro hc
    apply hz
    have h2 : ((2050 - current_year : ℤ) : ℚ) = 0 := by push_cast; linarith
    exact_mod_cast h2
  have hexp : calculate_expected_anomaly current_year a
      = .ok (a + (3/2 - a) / ((2050 : ℚ) - (current_year : ℚ))) := by
    unfold calculate_expected_anomaly
    rw [if_neg hz]
    push_cast
    ring_nf
  have hmain : carbonDate_adjust_date_based_on_anomaly [(current_year, a)] current_year input_date
      = .ok (input_date + (a - 3/2) / ((2050 : ℚ) - (current_year : ℚ)) * 365,
             (a - 3/2) / ((2050 : ℚ) - (current_year : ℚ))) := by
    simp only [carbonDate_adjust_date_based_on_anomaly, get_current_anomaly,
      if_pos, ite_true, hexp]
    simp only [Except.ok.injEq, Prod.mk.injEq]
    constructor
    · field_simp
      ring
    · field_simp
      ring
  refine ⟨hmain, ?_, ?_⟩
  · rintro rfl
    rw [hmain]
    norm_num
  · constructor
    · intro hlt
      nlinarith
    · intro hp
      nlinarith

/-- Witness for C2 at year 2024, anomaly 1.5, input date 7. -/
theorem c2_local_linear_difference_witness :
    carbonDate_adjust_date_based_on_anomaly [((2024 : ℤ), (3/2 : ℚ))] 2024 7
      = .ok (7, 0) :=
  (c2_local_linear_difference 2024 (3/2) 7 (by decide)).2.1 rfl

/-- C3: for both observed ProportionalBaseline configurations (carbonDate3.py
with baseline 2016 and target 2050, carbonDate4.py with baseline 1880 and
target 2100, both with target anomaly 1.5): an anomaly at or above the target
clamps the warped year to the target year exactly; an anomaly in [0, 1.5]
keeps the warped year between baseline and target, hitting the baseline
exactly at anomaly 0; and a negative anomaly extrapolates strictly below the
baseline year. -/
theorem c3_proportional_baseline_bounds (a : ℚ) :
    (3/2 ≤ a →
      carbonDate3_adjusted_year a = 2050 ∧ carbonDate4_adjusted_year a = 2100) ∧
    (0 ≤ a → a ≤ 3/2 →
      2016 ≤ carbonDate3_adjusted_year a ∧ carbonDate3_adjusted_year a ≤ 2050 ∧
      1880 ≤ carbonDate4_adjusted_year a ∧ carbonDate4_adjusted_year a ≤ 2100) ∧
    (a = 0 →
      carbonDate3_adjusted_year a = 2016 ∧ carbonDate4_adjusted_year a = 1880) ∧
    (a < 0 →
      carbonDate3_adjusted_year a < 2016 ∧ carbonDate4_adjusted_year a < 1880) := by
  unfold carbonDate3_adjusted_year carbonDate4_adjusted_year
  refine ⟨?_, ?_, ?_, ?_⟩
  · intro h
    constructor <;> rw [proportional_clamp _ _ _ _ h] <;> norm_num
  · intro h0 h32
    refine ⟨?_, ?_, ?_, ?_⟩
    · have := proportional_ge_baseline 2016 2050 (3/2) a (by norm_num) (by norm_num) h0
      simpa using this
    · have := proportional_le_target 2016 2050 (3/2) a (by norm_num) (by norm_num)
      simpa using this
    · have := proportional_ge_baseline 1880 2100 (3/2) a (by norm_num) (by norm_num) h0
      simpa using this
    · have := proportional_le_target 1880 2100 (3/2) a (by norm_num) (by norm_num)
      simpa using this
  · rintro rfl
    constructor
    · have := proportional_at_zero 2016 2050 (3/2) (by norm_num)
      simpa using this
    · have := proportional_at_zero 1880 2100 (3/2) (by norm_num)
      simpa using this
  · intro h
    constructor
    · have := proportional_below_baseline 2016 2050 (3/2) a (by norm_num) (by norm_num) h
      simpa using this
    · have := proportional_below_baseline 1880 2100 (3/2) a (by norm_num) (by norm_num) h
      simpa using this

/-- Witness for C3 at anomalies 2, 1, 0 and -1. -/
theorem c3_proportional_baseline_bounds_witness :
    carbonDate3_adjusted_year 2 = 2050 ∧
    (2016 ≤ carbonDate3_adjusted_year 1 ∧ carbonDate3_adjusted_year 1 ≤ 2050) ∧
    carbonDate4_adjusted_year 0 = 1880 ∧
    carbonDate3_adjusted_year (-1) < 2016 :=
  ⟨((c3_proportional_baseline_bounds 2).1 (by norm_num)).1,
   ⟨(((c3_proportional_baseline_bounds 1).2.1 (by norm_num) (by norm_num)).1),
    (((c3_proportional_baseline_bounds 1).2.1 (by norm_num) (by norm_num)).2.1)⟩,
   ((c3_proportional_baseline_bounds 0).2.2.1 rfl).2,
   ((c3_proportional_baseline_bounds (-1)).2.2.2 (by norm_num)).1⟩

/-- C7 counterexample: with baseline year 2050, target year 2016 and target
anomaly 1 (a positive target anomaly, as the claim requires, but a baseline
after the target year), raising the anomaly from 0 to 1 lowers the warped
year from 2050 to 2016, so the claim as stated is false. -/
theorem c7_proportional_monotone_cex :
    (0 : ℚ) < 1 ∧ (0 : ℚ) ≤ 1 ∧
    proportional_adjusted_year 2050 2016 1 1 < proportional_adjusted_year 2050 2016 1 0 := by
  norm_num [proportional_adjusted_year]

/-- C7 amended: ProportionalBaseline is monotone in the anomaly for every
configuration with positive target anomaly whose baseline year does not
exceed its target year (both observed configurations satisfy this). -/
theorem c7_proportional_monotone_amended (B T : ℤ) (t a₁ a₂ : ℚ)
    (ht : 0 < t) (hBT : B ≤ T) (h : a₁ ≤ a₂) :
    proportional_adjusted_year B T t a₁ ≤ proportional_adjusted_year B T t a₂ :=
  proportional_mono B T t a₁ a₂ ht (by exact_mod_cast hBT) h

/-- Witness for the amended C7 at the carbonDate4.py configuration with
anomalies 0 and 1. -/
theorem c7_proportional_monotone_amended_witness :
    proportional_adjusted_year 1880 2100 (3/2) 0
      ≤ proportional_adjusted_year 1880 2100 (3/2) 1 :=
  c7_proportional_monotone_amended 1880 2100 (3/2) 0 1 (by norm_num)
    (by norm_num) (by norm_num)

/-- Decidable equality for Except values, used to evaluate the embedded code
at concrete inputs. -/
instance exceptDecidableEq {e a : Type} [DecidableEq e] [DecidableEq a] :
    DecidableEq (Except e a) := fun x y =>
  match x, y with
  | .error e1, .error e2 =>
      if h : e1 = e2 then .isTrue (by rw [h])
      else .isFalse (fun hc => h (Except.error.inj hc))
  | .ok a1, .ok a2 =>
      if h : a1 = a2 then .isTrue (by rw [h])
      else .isFalse (fun hc => h (Except.ok.inj hc))
  | .error _, .ok _ => .isFalse (fun hc => Except.noConfusion hc)
  | .ok _, .error _ => .isFalse (fun hc => Except.noConfusion hc)

/-- Helper: bind on a successful Except value applies the continuation. -/
theorem except_ok_bind {e a b : Type} (x : a) (f : a → Except e b) :
    (Except.ok x >>= f : Except e b) = f x := rfl

/-- C5 counterexample: at current year 2050 (equal to the target year) and
anomaly 1, the projection of carbonDate.py faults with ZeroDivisionError: it
neither fails with DegenerateHorizon nor succeeds with any value, so in
particular it does not apply the zero-shift policy. -/
theorem c5_degenerate_horizon_cex :
    calculate_expected_anomaly 2050 1 = .error .zeroDivisionError ∧
    ¬ (calculate_expected_anomaly 2050 1 = .error .degenerateHorizon ∨
       ∃ q : ℚ, calculate_expected_anomaly 2050 1 = .ok q) := by
  refine ⟨by decide, ?_⟩
  rintro (h | ⟨q, h⟩) <;> simp [calculate_expected_anomaly] at h

/-- C5 amended: the guarded variant (warped_clock2.py) treats a zero horizon
as zero per-year shift, so at current year 2050 the expected anomaly equals
the current anomaly, the anomaly difference is 0 and the warped date equals
the input date; the unguarded variant (carbonDate.py, warped_clock.py) instead
faults with ZeroDivisionError, and no variant signals DegenerateHorizon. -/
theorem c5_degenerate_horizon_amended (a now_date : ℚ) :
    warpedClock2_calculate_expected_anomaly 2050 a = a ∧
    warpedClock2_adjust_date_based_on_anomaly [(2050, a)] 2050 now_date
      = .ok (now_date, 0) ∧
    calculate_expected_anomaly 2050 a = .error .zeroDivisionError := by
  have h1 : warpedClock2_calculate_expected_anomaly 2050 a = a := by
    simp [warpedClock2_calculate_expected_anomaly]
  refine ⟨h1, ?_, by simp [calculate_expected_anomaly]⟩
  simp [warpedClock2_adjust_date_based_on_anomaly, get_anomaly_for_year, h1]

/-- C4: evaluation exhibiting the window bug of warped_clock.py.  On a series
holding years 2024 and 2023, with current year 2024, warped_clock.py computes
year = current_year - i // 12 = 2024 for every i in 0..11, so it looks up the
single year 2024 twelve times (year 2023 is never looked up) and emits twelve
identical entries; warped_clock2.py on the same input looks up each window
year once and returns one entry per present year, in ascending year order. -/
theorem c4_rolling_window_lookup_bug :
    warpedClock_calculate_time_warp_data [((2024 : ℤ), (1 : ℚ)), (2023, 1)] 2024
      = .ok (List.replicate 12 2024, List.replicate 12 ((-365)/52)) ∧
    warpedClock2_calculate_time_warp_data [((2024 : ℤ), (1 : ℚ)), (2023, 1)] 2024
      = .ok ([2023, 2024], [(-365)/54, (-365)/52]) := by
  have hr : List.range 12 = [0, 1, 2, 3, 4, 5, 6, 7, 8, 9, 10, 11] := by decide
  constructor
  · norm_num [warpedClock_calculate_time_warp_data, hr, warpedClock_time_warp_step,
      get_anomaly_for_year, calculate_expected_anomaly, List.foldlM_cons,
      List.foldlM_nil, except_ok_bind, List.replicate]
  · norm_num [warpedClock2_calculate_time_warp_data, hr, warpedClock2_time_warp_step,
      get_anomaly_for_year, warpedClock2_calculate_expected_anomaly]
    intro h
    exact (List.cons_ne_nil _ _ h).elim

/-- C6: evaluation exhibiting the skip bug of warped_clock.py.  On a series
whose only record is year 2024 with recorded anomaly 0.0, warped_clock.py
treats the present 0.0 as missing (its truthiness test skips it) and returns
empty lists without signalling anything; warped_clock2.py on the same input
keeps the 0.0 record and produces its entry, and fails with ValueError (the
InsufficientData failure) exactly when no window year has a record, as on the
empty series. -/
theorem c6_zero_anomaly_skip_bug :
    warpedClock_calculate_time_warp_data [((2024 : ℤ), (0 : ℚ))] 2024 = .ok ([], []) ∧
    warpedClock2_calculate_time_warp_data [((2024 : ℤ), (0 : ℚ))] 2024
      = .ok ([2024], [(-1095)/52]) ∧
    warpedClock2_calculate_time_warp_data ([] : List (ℤ × ℚ)) 2024
      = .error .valueError := by
  refine ⟨by decide, ?_, by decide⟩
  have hr : List.range 12 = [0, 1, 2, 3, 4, 5, 6, 7, 8, 9, 10, 11] := by decide
  norm_num [warpedClock2_calculate_time_warp_data, hr, warpedClock2_time_warp_step,
    get_anomaly_for_year, warpedClock2_calculate_expected_anomaly]

/-- C8: both annual lookups return the stored anomaly of a matching record
when one exists and signal the absence of the year (None for the warped_clock
lookups, ValueError for the carbonDate lookups, both modelling YearNotFound)
exactly when no record for the year exists; no default value is ever
substituted. -/
theorem c8_annual_lookup_contract (s : List (ℤ × ℚ)) (y : ℤ) :
    (get_anomaly_for_year y s = none ↔ ∀ r ∈ s, r.1 ≠ y) ∧
    (∀ a : ℚ, get_anomaly_for_year y s = some a → (y, a) ∈ s) ∧
    (get_current_anomaly y s = .error .valueError ↔ ∀ r ∈ s, r.1 ≠ y) ∧
    (∀ a : ℚ, get_current_anomaly y s = .ok a → (y, a) ∈ s) := by
  induction s with
  | nil => simp [get_anomaly_for_year, get_current_anomaly]
  | cons r rest ih =>
      obtain ⟨ih1, ih2, ih3, ih4⟩ := ih
      obtain ⟨yr, ar⟩ := r
      by_cases hy : yr = y
      · subst hy
        refine ⟨?_, ?_, ?_, ?_⟩
        · simp [get_anomaly_for_year]
        · intro a ha
          simp [get_anomaly_for_year] at ha
          subst ha
          exact List.mem_cons_self _ _
        · simp [get_current_anomaly]
        · intro a ha
          simp [get_current_anomaly] at ha
          subst ha
          exact List.mem_cons_self _ _
      · refine ⟨?_, ?_, ?_, ?_⟩
        · simpa [get_anomaly_for_year, hy, Ne.symm hy] using ih1
        · intro a ha
          simp only [get_anomaly_for_year, if_neg (by simpa using hy)] at ha
          exact List.mem_cons_of_mem _ (ih2 a ha)
        · simpa [get_current_anomaly, hy, Ne.symm hy] using ih3
        · intro a ha
          simp only [get_current_anomaly, if_neg (by simpa using hy)] at ha
          exact List.mem_cons_of_mem _ (ih4 a ha)

/-- Witness for C8: year 2025 is absent from a one-record series and its
lookup returns none; year 2024 is present and its lookup returns the stored
record. -/
theorem c8_annual_lookup_contract_witness :
    get_anomaly_for_year 2025 [((2024 : ℤ), (1 : ℚ))] = none ∧
    ((2024 : ℤ), (1 : ℚ)) ∈ [((2024 : ℤ), (1 : ℚ))] :=
  ⟨(c8_annual_lookup_contract [((2024 : ℤ), (1 : ℚ))] 2025).1.mpr (by decide),
   (c8_annual_lookup_contract [((2024 : ℤ), (1 : ℚ))] 2024).2.2.2 1 (by rfl)⟩

/-- Helper: the Option-returning annual lookup returns the first-occurring
record for a year, ignoring any later duplicates. -/
theorem get_anomaly_for_year_first (y : ℤ) (a : ℚ) (s₂ : List (ℤ × ℚ)) :
    ∀ s₁ : List (ℤ × ℚ), (∀ r ∈ s₁, r.1 ≠ y) →
      get_anomaly_for_year y (s₁ ++ (y, a) :: s₂) = some a := by
  intro s₁
  induction s₁ with
  | nil => intro _; simp [get_anomaly_for_year]
  | cons r rest ih =>
      intro hs
      have hr : r.1 ≠ y := hs r (List.mem_cons_self r rest)
      simp only [List.cons_append, get_anomaly_for_year, if_neg hr]
      exact ih (fun r2 h2 => hs r2 (List.mem_cons_of_mem r h2))

/-- Helper: the ValueError-raising annual lookup returns the first-occurring
record for a year, ignoring any later duplicates. -/
theorem get_current_anomaly_first (y : ℤ) (a : ℚ) (s₂ : List (ℤ × ℚ)) :
    ∀ s₁ : List (ℤ × ℚ), (∀ r ∈ s₁, r.1 ≠ y) →
      get_current_anomaly y (s₁ ++ (y, a) :: s₂) = .ok a := by
  intro s₁
  induction s₁ with
  | nil => intro _; simp [get_current_anomaly]
  | cons r rest ih =>
      intro hs
      have hr : r.1 ≠ y := hs r (List.mem_cons_self r rest)
      simp only [List.cons_append, get_current_anomaly, if_neg hr]
      exact ih (fun r2 h2 => hs r2 (List.mem_cons_of_mem r h2))

/-- Helper: the monthly lookup returns the first-occurring record for a year,
ignoring any later duplicates. -/
theorem get_monthly_anomalies_first (y : ℤ) (ms : List (Option ℚ))
    (m₂ : List (ℤ × List (Option ℚ))) :
    ∀ m₁ : List (ℤ × List (Option ℚ)), (∀ r ∈ m₁, r.1 ≠ y) →
      get_monthly_anomalies y (m₁ ++ (y, ms) :: m₂) = .ok ms := by
  intro m₁
  induction m₁ with
  | nil => intro _; simp [get_monthly_anomalies]
  | cons r rest ih =>
      intro hs
      have hr : r.1 ≠ y := hs r (List.mem_cons_self r rest)
      simp only [List.cons_append, get_monthly_anomalies, if_neg hr]
      exact ih (fun r2 h2 => hs r2 (List.mem_cons_of_mem r h2))

/-- C9: duplicate-year resolution is first-wins in every lookup.  For a series
whose first record for year y carries value a (annual) or month list ms
(monthly), each lookup returns the value of that first record whatever records,
including further records for y, follow it; duplicates are never rejected or
merged and a later record never wins. -/
theorem c9_duplicate_year_first_wins (s₁ s₂ : List (ℤ × ℚ))
    (m₁ m₂ : List (ℤ × List (Option ℚ))) (y : ℤ) (a : ℚ) (ms : List (Option ℚ))
    (hs : ∀ r ∈ s₁, r.1 ≠ y) (hm : ∀ r ∈ m₁, r.1 ≠ y) :
    get_anomaly_for_year y (s₁ ++ (y, a) :: s₂) = some a ∧
    get_current_anomaly y (s₁ ++ (y, a) :: s₂) = .ok a ∧
    get_monthly_anomalies y (m₁ ++ (y, ms) :: m₂) = .ok ms :=
  ⟨get_anomaly_for_year_first y a s₂ s₁ hs,
   get_current_anomaly_first y a s₂ s₁ hs,
   get_monthly_anomalies_first y ms m₂ m₁ hm⟩

/-- Witness for C9: series with two records for year 2024; all lookups return
the value of the first record. -/
theorem c9_duplicate_year_first_wins_witness :
    get_anomaly_for_year 2024 [((2024 : ℤ), (1 : ℚ)), (2024, 2)] = some 1 ∧
    get_current_anomaly 2024 [((2024 : ℤ), (1 : ℚ)), (2024, 2)] = .ok 1 ∧
    get_monthly_anomalies 2024 [((2024 : ℤ), [some (1 : ℚ)]), (2024, [some 2])]
      = .ok [some 1] :=
  c9_duplicate_year_first_wins [] [((2024 : ℤ), (2 : ℚ))] []
    [((2024 : ℤ), [some (2 : ℚ)])] 2024 1 [some 1] (by simp) (by simp)

/-- C10: when the slot of the input month in the looked-up year is absent, the
monthly warp of carbonDate4.py yields no result at all: the gap filler leaves
the absent slot absent, and comparing the absent value against the target
anomaly faults with TypeError rather than producing a warped date or a
documented error. -/
theorem c10_missing_month_faults (series : List (ℤ × List (Option ℚ)))
    (y : ℤ) (m : ℕ) (d : ℚ) (ms : List (Option ℚ))
    (h1 : get_monthly_anomalies y series = .ok ms)
    (h2 : ms.get? m = some none) :
    carbonDate4_adjust_date_based_on_anomaly series y m d = .error .typeError := by
  simp only [carbonDate4_adjust_date_based_on_anomaly, h1, predict_missing_data_self, h2]

/-- Witness for C10: a year whose February slot is absent makes the monthly
warp fault with TypeError. -/
theorem c10_missing_month_faults_witness :
    carbonDate4_adjust_date_based_on_anomaly [((2024 : ℤ), [some 1, none])] 2024 1 0
      = .error .typeError :=
  c10_missing_month_faults [((2024 : ℤ), [some 1, none])] 2024 1 0 [some 1, none]
    (by rfl) (by rfl)
